import Mathlib

/-!
Shallow embedding of the chat / summarization pipeline of `src/main.py`
(FastAPI backend proxying OpenRouter, logging to OpenSearch).

Conventions of the embedding:
* A conversation turn (a Python dict with "role" and "content" keys) is a
  `Msg` record with total `String` fields.
* Network interactions (the OpenRouter POST, OpenSearch lookups/writes) are
  oracles passed in as explicit parameters; each constructor corresponds to
  one outcome class the Python code distinguishes (HTTP 200 body, non-2xx,
  raised exception).  A Python function whose `try/except` swallows every
  exception is embedded as a total Lean function; a spot where an exception
  could propagate is embedded with `Except`.
* Python floats measuring latency are embedded as `Nat` milliseconds
  (`int(x / 10)` on a nonnegative float is `Nat` division by 10).
* Python `str.lower()`, `str.strip()`, `str.startswith` and the `in`
  substring test are embedded as character-list functions (`strLower`,
  `strTrim`, `strStartsWith`, `strContains`; ASCII lowercasing, ASCII
  whitespace) so that every definition evaluates inside the kernel; the
  string literals of the source are reproduced verbatim (including the
  non-ASCII characters present in the file bytes).
-/

/-- A conversation turn: `{"role": ..., "content": ...}` dict of `src/main.py`. -/
structure Msg where
  role : String
  content : String
deriving DecidableEq

/-- `.startswith` on character lists (structural, kernel-computable). -/
def listPrefixOf : List Char → List Char → Bool
  | [], _ => true
  | _ :: _, [] => false
  | a :: as, b :: bs => a == b && listPrefixOf as bs

/-- Substring occurrence on character lists (Python's `sub in s`). -/
def listInfixOf (sub : List Char) : List Char → Bool
  | [] => listPrefixOf sub []
  | c :: rest => listPrefixOf sub (c :: rest) || listInfixOf sub rest

/-- Python `str.lower()`, character-wise ASCII lowercasing. -/
def strLower (s : String) : String := String.mk (s.data.map Char.toLower)

/-- Python `str.strip()`: drop whitespace from both ends. -/
def strTrim (s : String) : String :=
  String.mk (((s.data.dropWhile Char.isWhitespace).reverse.dropWhile
    Char.isWhitespace).reverse)

/-- Python `s.startswith(pre)`. -/
def strStartsWith (s pre : String) : Bool := listPrefixOf pre.data s.data

/-- Python's `sub in s` substring test. -/
def strContains (s sub : String) : Bool := listInfixOf sub.data s.data

/-- The keyword list of `is_image_generation_prompt` (src/main.py line 737);
the two non-ASCII entries reproduce the file's literal characters. -/
def imageKeywords : List String :=
  ["/imagine", "/gen", "/image", "/img",
   "à¸ªà¸£à¹‰à¸²à¸‡à¸£à¸¹à¸›",
   "à¸§à¸²à¸”à¸£à¸¹à¸›",
   "generate image", "create image"]

/-- `is_image_generation_prompt` (src/main.py lines 732-738):
`text.lower().strip()` starts with one of the keywords. -/
def is_image_generation_prompt (text : String) : Bool :=
  let text_lower := strTrim (strLower text)
  imageKeywords.any (fun kw => strStartsWith text_lower kw)

/-- The command-prefix removal of the image branch of `chat_with_ai`
(src/main.py lines 762-767): strip the message, find the first keyword the
lowercased text starts with, drop it and strip again. -/
def stripImageCommand (message : String) : String :=
  let text_to_translate := strTrim message
  match imageKeywords.find? (fun kw => strStartsWith (strLower text_to_translate) kw) with
  | some kw => strTrim (text_to_translate.drop kw.length)
  | none => text_to_translate

/-- The single model used by `_translate_logic` (src/main.py line 614). -/
def translateModelName : String := "google/gemma-3-27b-it:free"

/-- Outcome of the one upstream call `_translate_logic` makes: an HTTP
response (status, the `content` strings of `choices`, response text), or a
raised exception (network error, JSON decode error, missing keys). -/
inductive TranslateAttempt where
  | http (status : Nat) (choices : List String) (rtext : String)
  | exn (msg : String)
deriving DecidableEq

/-- The error string `_translate_logic` appends on a failed attempt
(src/main.py lines 666-670). -/
def translateFailMsg (status : Nat) (rtext : String) : String :=
  "Model " ++ translateModelName ++ " failed: " ++ toString status ++ " - " ++ rtext.take 200

/-- `_translate_logic` (src/main.py lines 607-677): empty input returns
`("", [])`; a 200 response with a choice whose stripped content is non-empty
returns that content; every other outcome falls through the single-model
loop and returns the original text with the collected error. -/
def translateLogic (text : String) (attempt : TranslateAttempt) : String × List String :=
  if text = "" ∨ strTrim text = "" then ("", [])
  else
    match attempt with
    | TranslateAttempt.exn msg =>
        (text, ["Model " ++ translateModelName ++ " exception: " ++ msg])
    | TranslateAttempt.http status choices rtext =>
        if status = 200 then
          match choices with
          | c :: _ =>
              if strTrim c ≠ "" then (strTrim c, [])
              else (text, [translateFailMsg status rtext])
          | [] => (text, [translateFailMsg status rtext])
        else (text, [translateFailMsg status rtext])

/-- The fixed system directive of `chat_with_ai` (src/main.py lines 784-794),
reproduced character-for-character from the file bytes. -/
def systemContentBase : String :=
  "You are ABDUL, a helpful AI assistant.\nCORE DIRECTIVES:\n1. LANGUAGE: Answer in THAI only (unless user speaks English).\n2. SCRIPT: Use THAI SCRIPT ONLY. Do not use Roman/English letters for Thai words.\n3. NO PRONUNCIATION: Do not explain how to pronounce Thai words.\n4. NO REPETITION: Do not repeat meanings in multiple languages.\n\nCORRECT EXAMPLE:\nâœ… 'à¸ªà¸§à¸±à¸ªà¸”à¸µà¸„à¸£à¸±à¸š à¸¡à¸µà¸­à¸°à¹„à¸£à¹ƒà¸«à¹‰à¸Šà¹ˆà¸§à¸¢à¹„à¸«à¸¡à¸„à¸£à¸±à¸š'\nâœ… '1 à¸§à¸±à¸™ à¸¡à¸µ 24 à¸Šà¸±à¹ˆà¸§à¹‚à¸¡à¸‡à¸„à¸£à¸±à¸š'"

/-- The header prepended to an injected memory context
(src/main.py line 802, the f-string inside the `+=`). -/
def longTermMemoryHeader : String :=
  "\n\n[Long-term memory from previous chats]:\n"

/-- One hit `_source` returned by the OpenSearch `chat_summaries` query in
`search_user_memory`; both fields are read with `.get`, hence optional. -/
structure StoreHit where
  summary : Option String
  last_message_at : Option String
deriving DecidableEq

/-- Condition of the OpenSearch store as seen by one lookup:
client handle is `None`, the call raised, or it returned a hit list. -/
inductive StoreLookup where
  | noClient
  | storeError (msg : String)
  | found (hits : List StoreHit)
deriving DecidableEq

/-- `search_user_memory` (src/main.py lines 413-441): `None` when the client
is absent, the email is falsy, the call raises, there are no hits, or the
hit has no (non-empty) summary; otherwise the formatted memory string.
The `try/except` catches every exception, so the embedding is total. -/
def search_user_memory (user_email : String) (store : StoreLookup) : Option String :=
  if user_email = "" then none
  else
    match store with
    | StoreLookup.noClient => none
    | StoreLookup.storeError _ => none
    | StoreLookup.found hits =>
        match hits with
        | [] => none
        | h :: _ =>
            match h.summary with
            | some s =>
                if s ≠ "" then
                  some ("[From previous chat on " ++ (h.last_message_at.getD "").take 10 ++ "]: " ++ s)
                else none
            | none => none

/-- Python truthiness of an `Optional[str]`: `None` and `""` are falsy. -/
def optStrTruthy : Option String → Bool
  | none => false
  | some s => s ≠ ""

/-- The system-prompt construction of `chat_with_ai` (src/main.py lines
784-802): when the user is known and the memory lookup returns a truthy
string, it is appended (`+=`) to the base system content. -/
def chatSystemContent (user_email : Option String) (store : StoreLookup) : String :=
  if optStrTruthy user_email then
    match search_user_memory (user_email.getD "") store with
    | some memory_context =>
        if memory_context ≠ "" then
          systemContentBase ++ longTermMemoryHeader ++ memory_context
        else systemContentBase
    | none => systemContentBase
  else systemContentBase

/-- The `"gemma-3" in request.model` check of `chat_with_ai`
(src/main.py line 809). -/
def containsGemma3 (model : String) : Bool := strContains model "gemma-3"

/-- The message-list construction of `chat_with_ai` (src/main.py lines
805-830).  For a gemma-3 model the system content is prepended as a text
prefix on the first history turn (role coerced to user) or on the new user
message; otherwise a system turn is inserted at index 0 (or the existing
index-0 system turn's content is overwritten).  The new user message is
appended last. -/
def assembleMessages (model : String) (history : List Msg) (userMsg : String)
    (sysContent : String) : List Msg :=
  if containsGemma3 model then
    match history with
    | [] => [Msg.mk "user" (sysContent ++ "\n\n" ++ userMsg)]
    | h :: rest =>
        let newRole := if h.role = "system" then "user" else h.role
        (Msg.mk newRole (sysContent ++ "\n\n" ++ h.content) :: rest) ++ [Msg.mk "user" userMsg]
  else
    match history with
    | [] => [Msg.mk "system" sysContent, Msg.mk "user" userMsg]
    | h :: rest =>
        if h.role = "system" then
          (Msg.mk h.role sysContent :: rest) ++ [Msg.mk "user" userMsg]
        else
          (Msg.mk "system" sysContent :: h :: rest) ++ [Msg.mk "user" userMsg]

/-- One typed part of a multi-part `message.content` in an OpenAI-style
completion response. -/
inductive ContentPart where
  | text (s : String)
  | image_url (url : String)
deriving DecidableEq

/-- The dynamic shape of `choices[0].message.content`: a plain string or a
list of typed parts. -/
inductive ChatContent where
  | str (s : String)
  | parts (ps : List ContentPart)
deriving DecidableEq

/-- The `usage` dict of an OpenRouter response; every field is read with
`.get`, hence optional. -/
structure ChatUsage where
  prompt_tokens : Option Int
  completion_tokens : Option Int
  total_tokens : Option Int
deriving DecidableEq

/-- The parsed JSON body of a 200 OpenRouter chat response as `chat_with_ai`
reads it: `choices` (list of `message.content` values; `none` models a body
without the key), `model`, `usage`. -/
structure ChatBody where
  choices : Option (List ChatContent)
  model : Option String
  usage : Option ChatUsage
deriving DecidableEq

/-- Outcome of the single upstream POST `chat_with_ai` makes. -/
inductive ChatUpstream where
  | ok (body : ChatBody)
  | httpErr (status : Nat) (rtext : String)
  | exn (msg : String)
deriving DecidableEq

/-- The `ChatRequest` pydantic model (src/main.py lines 723-729);
`history or []` is pre-applied, so history is a plain list. -/
structure ChatRequestR where
  message : String
  model : String
  history : List Msg
  chat_id : Option String
  user_email : Option String
deriving DecidableEq

/-- One observable side-effect step of the `/chat` handler, in program
order.  `bg...` steps are dispatched with `background_tasks.add_task`;
`awaitTokenUsage` is the `await log_token_usage(...)` at src/main.py
lines 915-924, executed inline before the handler returns. -/
inductive ChatStep where
  | translateCall (text : String)
  | memoryLookup (email : String)
  | bgLogUser
  | upstreamPost (model : String) (messages : List Msg)
  | bgLogAssistantOk
  | bgLogAssistantErr
  | awaitTokenUsage
  | bgQuickUpdate
deriving DecidableEq

/-- Whether a step is dispatched as a FastAPI background task (off the
response path) rather than awaited inline by the handler. -/
def isBackgroundStep : ChatStep → Bool
  | ChatStep.bgLogUser => true
  | ChatStep.bgLogAssistantOk => true
  | ChatStep.bgLogAssistantErr => true
  | ChatStep.bgQuickUpdate => true
  | _ => false

/-- Whether a step is a memory lookup or the upstream chat POST. -/
def isMemoryOrUpstream : ChatStep → Bool
  | ChatStep.memoryLookup _ => true
  | ChatStep.upstreamPost _ _ => true
  | _ => false

/-- The HTTP response body of `/chat`: `{"success": true, "data": {message,
images, model}}` or `{"success": false, "error": ...}`. -/
inductive ChatOutcome where
  | success (message : ChatContent) (images : List String) (model : String)
  | failure (error : String)
deriving DecidableEq

/-- The `/chat` endpoint `chat_with_ai` (src/main.py lines 741-957), as a
function of the request and of oracles for the memory store, the upstream
chat call, and the translation call.  Returns the response together with the
ordered list of side-effect steps the handler performs before returning.
An image-generation prompt takes the translation branch and returns at once
(lines 760-781).  Otherwise: optional memory lookup (truthy `user_email`),
background user-turn log, upstream POST with the assembled messages; non-200
or a raised exception produce an error response after a background error
log; on success `ai_message = data["choices"][0]["message"]["content"]` is
returned as-is with `images` always `[]` (lines 896-943), after a background
assistant log, the inline `await log_token_usage`, and (truthy `chat_id`) a
background quick update.  A body without `choices` raises `KeyError`
(`str` = `'choices'`), an empty `choices` raises `IndexError`; both are
caught by the outer `except` which returns `{"success": false, "error":
str(e)}`. -/
def chatHandler (req : ChatRequestR) (store : StoreLookup) (up : ChatUpstream)
    (tr : TranslateAttempt) : ChatOutcome × List ChatStep :=
  if is_image_generation_prompt req.message then
    let stripped := stripImageCommand req.message
    (ChatOutcome.success (ChatContent.str (translateLogic stripped tr).fst) []
       "google/gemma-3-27b-it:free",
     [ChatStep.translateCall stripped])
  else
    let memSteps : List ChatStep :=
      if optStrTruthy req.user_email then [ChatStep.memoryLookup (req.user_email.getD "")]
      else []
    let messages := assembleMessages req.model req.history req.message
      (chatSystemContent req.user_email store)
    let preSteps := memSteps ++ [ChatStep.bgLogUser, ChatStep.upstreamPost req.model messages]
    match up with
    | ChatUpstream.httpErr _status rtext =>
        (ChatOutcome.failure ("OpenRouter Error: " ++ rtext),
         preSteps ++ [ChatStep.bgLogAssistantErr])
    | ChatUpstream.exn msg =>
        (ChatOutcome.failure msg, preSteps ++ [ChatStep.bgLogAssistantErr])
    | ChatUpstream.ok body =>
        match body.choices with
        | none =>
            (ChatOutcome.failure "'choices'",
             preSteps ++ [ChatStep.bgLogAssistantErr])
        | some [] =>
            (ChatOutcome.failure "list index out of range",
             preSteps ++ [ChatStep.bgLogAssistantErr])
        | some (c :: _) =>
            (ChatOutcome.success c [] (body.model.getD req.model),
             preSteps ++ ([ChatStep.bgLogAssistantOk, ChatStep.awaitTokenUsage] ++
               (if optStrTruthy req.chat_id then [ChatStep.bgQuickUpdate] else [])))

/-- The token-count computation of `log_token_usage` (src/main.py lines
286-312): extract the three counts from `usage` when present; if
`total_tokens` ended up `None`, overwrite all three with the latency
heuristic (`max(100, int(response_time_ms / 10))` on success, else 0,
halved for prompt/completion). -/
def tokenCounts (usage : Option ChatUsage) (response_time_ms : Nat) (status : String) :
    Option Int × Option Int × Option Int :=
  let extracted : Option Int × Option Int × Option Int :=
    match usage with
    | some u => (u.prompt_tokens, u.completion_tokens, u.total_tokens)
    | none => (none, none, none)
  match extracted.2.2 with
  | none =>
      let estimated_total : Int :=
        if status = "success" then max 100 (Int.ofNat (response_time_ms / 10)) else 0
      let half : Int := if estimated_total > 0 then estimated_total / 2 else 0
      (some half, some half, some estimated_total)
  | some t => (extracted.1, extracted.2.1, some t)

/-- The provider parsing of `log_token_usage` (src/main.py lines 314-317). -/
def providerOf (model : String) : String :=
  if strContains model "/" then (model.splitOn "/").headD "" else "unknown"

/-- The document `log_token_usage` indexes into `token_usage`
(src/main.py lines 320-334); the wall-clock timestamp and the constant
`cost = 0.0` are omitted. -/
structure TokenDoc where
  request_id : String
  session_id : String
  user_id : String
  model : String
  provider : String
  prompt_tokens : Option Int
  completion_tokens : Option Int
  total_tokens : Option Int
  response_time_ms : Nat
  status : String
  endpoint : String
deriving DecidableEq

/-- Result of the OpenSearch `index` call inside `log_token_usage`. -/
inductive StoreWrite where
  | ok (docId : String)
  | err (msg : String)
deriving DecidableEq

/-- Store condition seen by one `log_token_usage` call: whether the global
client is up, whether the reconnection attempt would succeed, and what the
index call would do. -/
structure TokenLogEnv where
  clientUp : Bool
  reconnectOk : Bool
  writeResult : StoreWrite
deriving DecidableEq

/-- How one `log_token_usage` call ended: skipped (no client, reconnect
failed), document indexed, or index error caught and printed. -/
inductive TokenLogRun where
  | skipped
  | logged (doc : TokenDoc)
  | failedSwallowed (doc : TokenDoc) (err : String)
deriving DecidableEq

/-- `log_token_usage` (src/main.py lines 241-341).  The `Except` codomain
makes a propagated exception representable; the function never produces
one, because the reconnection attempt is wrapped in a bare `except` that
returns (lines 279-284) and the index call in a `try/except` that prints
(lines 336-341). -/
def log_token_usage (request_id session_id user_id model : String)
    (usage : Option ChatUsage) (response_time_ms : Nat) (status endpoint : String)
    (env : TokenLogEnv) : Except String TokenLogRun :=
  if !env.clientUp && !env.reconnectOk then Except.ok TokenLogRun.skipped
  else
    let counts := tokenCounts usage response_time_ms status
    let doc : TokenDoc :=
      ⟨request_id, session_id, user_id, model, providerOf model,
       counts.1, counts.2.1, counts.2.2, response_time_ms, status, endpoint⟩
    match env.writeResult with
    | StoreWrite.ok _ => Except.ok (TokenLogRun.logged doc)
    | StoreWrite.err e => Except.ok (TokenLogRun.failedSwallowed doc e)

/-- `true` iff an `Except` value is `ok` (the call returned normally). -/
def exceptOk {ε α : Type} : Except ε α → Bool
  | Except.ok _ => true
  | Except.error _ => false

/-- Outcome of one summarization-model attempt in `_analyze_chat_logic`:
HTTP 200 with the `content` strings of `choices` (`[]` models a missing or
empty `choices`), a non-200 status with response text, or a raised
exception. -/
inductive SummaryAttempt where
  | ok (choices : List String)
  | httpErr (status : Nat) (rtext : String)
  | exn (msg : String)
deriving DecidableEq

/-- Observable event of the summarization cascade: an upstream POST for a
model, an `asyncio.sleep`, or the `index_chat_summary` upsert. -/
inductive CascadeEvent where
  | call (model : String)
  | sleep (seconds : Nat)
  | indexSummary
deriving DecidableEq

/-- Result of `_analyze_chat_logic`'s cascade: the first successful model's
raw content (from which title/summary/topics are then parsed by fixed
regexes, a deterministic function of the content), or the terminal failure
response. -/
inductive AnalyzeOutcome where
  | ok (model : String) (content : String)
  | failure (error : String)
deriving DecidableEq

/-- The error string appended on a non-200 attempt
(src/main.py line 1113). -/
def summaryHttpErrorText (model : String) (status : Nat) (rtext : String) : String :=
  model ++ ": " ++ toString status ++ " - " ++ rtext.take 200

/-- The error string appended on a raised exception
(src/main.py line 1120). -/
def summaryExnText (model : String) (msg : String) : String :=
  model ++ " error: " ++ msg

/-- The terminal failure message (src/main.py line 1125):
`errors[-1]` or `"Unknown"` when no error was collected. -/
def allFailedText (errors : List String) : String :=
  "All models failed. Last error: " ++ (errors.getLast?.getD "Unknown")

/-- The model loop of `_analyze_chat_logic` (src/main.py lines 1024-1125),
parametric in the model list and in the per-model outcome oracle, carrying
the accumulated error list.  A 200 response with non-empty `choices`
indexes the summary and returns at once; a 200 response with missing/empty
`choices` silently moves on (no error appended, no sleep); a non-200
appends an error and sleeps 1 second only for status 429; an exception
appends an error and continues.  Also returns the ordered event trace. -/
def analyzeCascade (respond : String → SummaryAttempt) :
    List String → List String → AnalyzeOutcome × List CascadeEvent
  | errors, [] => (AnalyzeOutcome.failure (allFailedText errors), [])
  | errors, model :: rest =>
      match respond model with
      | SummaryAttempt.ok (c :: _) =>
          (AnalyzeOutcome.ok model c, [CascadeEvent.call model, CascadeEvent.indexSummary])
      | SummaryAttempt.ok [] =>
          let r := analyzeCascade respond errors rest
          (r.fst, CascadeEvent.call model :: r.snd)
      | SummaryAttempt.httpErr status rtext =>
          let r := analyzeCascade respond (errors ++ [summaryHttpErrorText model status rtext]) rest
          if status = 429 then
            (r.fst, CascadeEvent.call model :: CascadeEvent.sleep 1 :: r.snd)
          else
            (r.fst, CascadeEvent.call model :: r.snd)
      | SummaryAttempt.exn msg =>
          let r := analyzeCascade respond (errors ++ [summaryExnText model msg]) rest
          (r.fst, CascadeEvent.call model :: r.snd)

/-- The fixed model list of `_analyze_chat_logic`
(src/main.py lines 981-987). -/
def SUMMARY_MODELS : List String :=
  ["google/gemini-2.0-flash-exp:free",
   "google/gemini-2.0-flash-thinking-exp:free",
   "meta-llama/llama-3-70b-instruct:free",
   "mistralai/mixtral-8x7b-instruct",
   "qwen/qwen-2-7b-instruct:free"]

/-- `m.get("role") in ("user", "assistant")` (src/main.py line 991). -/
def isConvRole (m : Msg) : Bool := m.role = "user" || m.role = "assistant"

/-- The input trimming of `_analyze_chat_logic` (src/main.py lines 990-991):
`[m for m in messages[-50:] if m.get("role") in ("user", "assistant")]` —
the raw list is sliced to its last 50 turns first, then filtered. -/
def analyzeTrimmed (messages : List Msg) : List Msg :=
  (messages.drop (messages.length - 50)).filter isConvRole

/-- Modelled from the spec (section 4.6): the order of operations the spec
ascribes to the summarization job — drop non-conversation turns first, then
trim to the most recent 50.  Defined only as the comparand for claim C6;
the code's order is `analyzeTrimmed`. -/
def specDropThenTrim (messages : List Msg) : List Msg :=
  (messages.filter isConvRole).drop ((messages.filter isConvRole).length - 50)

/-- `_analyze_chat_logic` entry (src/main.py lines 970-1125): empty trimmed
conversation short-circuits, otherwise the cascade runs over
`SUMMARY_MODELS`. -/
def analyzeChatLogic (messages : List Msg) (respond : String → SummaryAttempt) :
    AnalyzeOutcome × List CascadeEvent :=
  if analyzeTrimmed messages = [] then
    (AnalyzeOutcome.failure "No conversation to analyze", [])
  else analyzeCascade respond [] SUMMARY_MODELS

/-- The models POSTed to, in order, of an event trace. -/
def callsOf (evs : List CascadeEvent) : List String :=
  evs.filterMap fun e =>
    match e with
    | CascadeEvent.call m => some m
    | _ => none

/-- The sleep durations, in order, of an event trace. -/
def sleepsOf (evs : List CascadeEvent) : List Nat :=
  evs.filterMap fun e =>
    match e with
    | CascadeEvent.sleep n => some n
    | _ => none

/-- Whether the oracle makes a model's attempt succeed
(HTTP 200 with non-empty `choices`). -/
def succeedsAt (respond : String → SummaryAttempt) (model : String) : Bool :=
  match respond model with
  | SummaryAttempt.ok (_ :: _) => true
  | _ => false

/-- Whether the oracle rate-limits a model's attempt (HTTP 429). -/
def rateLimitedAt (respond : String → SummaryAttempt) (model : String) : Bool :=
  match respond model with
  | SummaryAttempt.httpErr status _ => status == 429
  | _ => false

theorem callsOf_nil : callsOf [] = [] := rfl

theorem callsOf_call (m : String) (evs : List CascadeEvent) :
    callsOf (CascadeEvent.call m :: evs) = m :: callsOf evs := rfl

theorem callsOf_sleep (n : Nat) (evs : List CascadeEvent) :
    callsOf (CascadeEvent.sleep n :: evs) = callsOf evs := rfl

theorem callsOf_index (evs : List CascadeEvent) :
    callsOf (CascadeEvent.indexSummary :: evs) = callsOf evs := rfl

theorem sleepsOf_nil : sleepsOf [] = [] := rfl

theorem sleepsOf_call (m : String) (evs : List CascadeEvent) :
    sleepsOf (CascadeEvent.call m :: evs) = sleepsOf evs := rfl

theorem sleepsOf_sleep (n : Nat) (evs : List CascadeEvent) :
    sleepsOf (CascadeEvent.sleep n :: evs) = n :: sleepsOf evs := rfl

theorem sleepsOf_index (evs : List CascadeEvent) :
    sleepsOf (CascadeEvent.indexSummary :: evs) = sleepsOf evs := rfl

theorem analyzeCascade_cons_ok (respond : String → SummaryAttempt)
    (errors : List String) (model : String) (rest : List String)
    (c : String) (cs : List String) (h : respond model = SummaryAttempt.ok (c :: cs)) :
    analyzeCascade respond errors (model :: rest) =
      (AnalyzeOutcome.ok model c,
       [CascadeEvent.call model, CascadeEvent.indexSummary]) := by
  simp [analyzeCascade, h]

theorem analyzeCascade_cons_empty (respond : String → SummaryAttempt)
    (errors : List String) (model : String) (rest : List String)
    (h : respond model = SummaryAttempt.ok []) :
    analyzeCascade respond errors (model :: rest) =
      ((analyzeCascade respond errors rest).fst,
       CascadeEvent.call model :: (analyzeCascade respond errors rest).snd) := by
  simp [analyzeCascade, h]

theorem analyzeCascade_cons_429 (respond : String → SummaryAttempt)
    (errors : List String) (model : String) (rest : List String)
    (rtext : String) (h : respond model = SummaryAttempt.httpErr 429 rtext) :
    analyzeCascade respond errors (model :: rest) =
      ((analyzeCascade respond (errors ++ [summaryHttpErrorText model 429 rtext]) rest).fst,
       CascadeEvent.call model :: CascadeEvent.sleep 1 ::
         (analyzeCascade respond (errors ++ [summaryHttpErrorText model 429 rtext]) rest).snd) := by
  simp [analyzeCascade, h]

theorem analyzeCascade_cons_http (respond : String → SummaryAttempt)
    (errors : List String) (model : String) (rest : List String)
    (status : Nat) (rtext : String) (h : respond model = SummaryAttempt.httpErr status rtext)
    (hne : status ≠ 429) :
    analyzeCascade respond errors (model :: rest) =
      ((analyzeCascade respond (errors ++ [summaryHttpErrorText model status rtext]) rest).fst,
       CascadeEvent.call model ::
         (analyzeCascade respond (errors ++ [summaryHttpErrorText model status rtext]) rest).snd) := by
  simp [analyzeCascade, h, hne]

theorem analyzeCascade_cons_exn (respond : String → SummaryAttempt)
    (errors : List String) (model : String) (rest : List String)
    (msg : String) (h : respond model = SummaryAttempt.exn msg) :
    analyzeCascade respond errors (model :: rest) =
      ((analyzeCascade respond (errors ++ [summaryExnText model msg]) rest).fst,
       CascadeEvent.call model ::
         (analyzeCascade respond (errors ++ [summaryExnText model msg]) rest).snd) := by
  simp [analyzeCascade, h]

theorem analyzeCascade_success_aux (respond : String → SummaryAttempt)
    (m c : String) (cs : List String) (post : List String)
    (hm : respond m = SummaryAttempt.ok (c :: cs)) (pre : List String)
    (hpre : ∀ x ∈ pre, succeedsAt respond x = false) :
    ∀ errors : List String,
      (analyzeCascade respond errors (pre ++ m :: post)).fst = AnalyzeOutcome.ok m c ∧
      callsOf (analyzeCascade respond errors (pre ++ m :: post)).snd = pre ++ [m] := by
  induction pre with
  | nil =>
      intro errors
      rw [List.nil_append, analyzeCascade_cons_ok respond errors m post c cs hm]
      exact ⟨rfl, rfl⟩
  | cons x pre ih =>
      intro errors
      have hx : succeedsAt respond x = false := hpre x (by simp)
      have hih := ih (fun y hy => hpre y (by simp [hy]))
      rw [List.cons_append]
      cases hr : respond x with
      | ok l =>
          cases l with
          | nil =>
              rw [analyzeCascade_cons_empty respond errors x (pre ++ m :: post) hr]
              exact ⟨(hih errors).1,
                by rw [callsOf_call, (hih errors).2, List.cons_append]⟩
          | cons a as =>
              exfalso
              simp [succeedsAt, hr] at hx
      | httpErr status rtext =>
          by_cases h429 : status = 429
          · subst h429
            rw [analyzeCascade_cons_429 respond errors x (pre ++ m :: post) rtext hr]
            exact ⟨(hih _).1,
              by rw [callsOf_call, callsOf_sleep, (hih _).2, List.cons_append]⟩
          · rw [analyzeCascade_cons_http respond errors x (pre ++ m :: post) status rtext hr h429]
            exact ⟨(hih _).1,
              by rw [callsOf_call, (hih _).2, List.cons_append]⟩
      | exn msg =>
          rw [analyzeCascade_cons_exn respond errors x (pre ++ m :: post) msg hr]
          exact ⟨(hih _).1,
            by rw [callsOf_call, (hih _).2, List.cons_append]⟩

/-- C1: for every non-empty ordered model list, the summarization cascade of
`_analyze_chat_logic` attempts models strictly in declared order; at the
first model whose call succeeds (HTTP 200 with a non-empty `choices` array)
it returns that model's result (from whose content the title/summary/topics
are parsed) immediately, and no later model in the list is ever called: the
POSTed models are exactly the failing prefix followed by the succeeding
model. -/
theorem c1_cascade_first_success (respond : String → SummaryAttempt)
    (pre post : List String) (m c : String) (cs : List String)
    (hpre : ∀ x ∈ pre, succeedsAt respond x = false)
    (hm : respond m = SummaryAttempt.ok (c :: cs)) :
    (analyzeCascade respond [] (pre ++ m :: post)).fst = AnalyzeOutcome.ok m c ∧
    callsOf (analyzeCascade respond [] (pre ++ m :: post)).snd = pre ++ [m] :=
  analyzeCascade_success_aux respond m c cs post hm pre hpre []

/-- Witness for C1: first model rate-limited, second succeeds, third never
called; the cascade returns the second model's content after exactly two
calls. -/
theorem c1_witness :
    (∀ x ∈ ["model-a"],
      succeedsAt (fun s => if s = "model-a" then SummaryAttempt.httpErr 429 "rate limited"
        else SummaryAttempt.ok ["Title: t"]) x = false) ∧
    (analyzeCascade (fun s => if s = "model-a" then SummaryAttempt.httpErr 429 "rate limited"
        else SummaryAttempt.ok ["Title: t"]) [] (["model-a"] ++ "model-b" :: ["model-c"])).fst
      = AnalyzeOutcome.ok "model-b" "Title: t" ∧
    callsOf (analyzeCascade (fun s => if s = "model-a" then SummaryAttempt.httpErr 429 "rate limited"
        else SummaryAttempt.ok ["Title: t"]) [] (["model-a"] ++ "model-b" :: ["model-c"])).snd
      = ["model-a"] ++ ["model-b"] :=
  ⟨by decide,
   c1_cascade_first_success _ ["model-a"] ["model-c"] "model-b" "Title: t" []
     (by decide) (by decide)⟩

theorem rateLimitedAt_false_of_ok (respond : String → SummaryAttempt)
    (m : String) (l : List String) (h : respond m = SummaryAttempt.ok l) :
    rateLimitedAt respond m = false := by
  simp [rateLimitedAt, h]

theorem rateLimitedAt_false_of_exn (respond : String → SummaryAttempt)
    (m : String) (msg : String) (h : respond m = SummaryAttempt.exn msg) :
    rateLimitedAt respond m = false := by
  simp [rateLimitedAt, h]

theorem rateLimitedAt_false_of_http (respond : String → SummaryAttempt)
    (m : String) (status : Nat) (rtext : String)
    (h : respond m = SummaryAttempt.httpErr status rtext) (hne : status ≠ 429) :
    rateLimitedAt respond m = false := by
  simp [rateLimitedAt, h]
  omega

theorem rateLimitedAt_true_of_429 (respond : String → SummaryAttempt)
    (m : String) (rtext : String) (h : respond m = SummaryAttempt.httpErr 429 rtext) :
    rateLimitedAt respond m = true := by
  simp [rateLimitedAt, h]

theorem analyzeCascade_sleep_shape (respond : String → SummaryAttempt)
    (models : List String) :
    ∀ errors : List String,
      sleepsOf (analyzeCascade respond errors models).snd
        = ((callsOf (analyzeCascade respond errors models).snd).filter
            (rateLimitedAt respond)).map (fun _ => 1) ∧
      callsOf (analyzeCascade respond errors models).snd <+: models := by
  induction models with
  | nil =>
      intro errors
      exact ⟨rfl, List.nil_prefix⟩
  | cons m rest ih =>
      intro errors
      cases hr : respond m with
      | ok l =>
          cases l with
          | nil =>
              rw [analyzeCascade_cons_empty respond errors m rest hr]
              rw [callsOf_call, sleepsOf_call, List.filter_cons,
                rateLimitedAt_false_of_ok respond m [] hr, if_neg Bool.false_ne_true]
              exact ⟨(ih errors).1, List.cons_prefix_cons.mpr ⟨rfl, (ih errors).2⟩⟩
          | cons c cs =>
              rw [analyzeCascade_cons_ok respond errors m rest c cs hr]
              rw [callsOf_call, callsOf_index, callsOf_nil, sleepsOf_call, sleepsOf_index,
                sleepsOf_nil, List.filter_cons,
                rateLimitedAt_false_of_ok respond m (c :: cs) hr, if_neg Bool.false_ne_true]
              exact ⟨rfl, List.cons_prefix_cons.mpr ⟨rfl, List.nil_prefix⟩⟩
      | httpErr status rtext =>
          by_cases h429 : status = 429
          · subst h429
            rw [analyzeCascade_cons_429 respond errors m rest rtext hr]
            rw [callsOf_call, callsOf_sleep, sleepsOf_call, sleepsOf_sleep, List.filter_cons,
              rateLimitedAt_true_of_429 respond m rtext hr, if_pos rfl, List.map_cons]
            exact ⟨congrArg (List.cons 1) (ih _).1,
              List.cons_prefix_cons.mpr ⟨rfl, (ih _).2⟩⟩
          · rw [analyzeCascade_cons_http respond errors m rest status rtext hr h429]
            rw [callsOf_call, sleepsOf_call, List.filter_cons,
              rateLimitedAt_false_of_http respond m status rtext hr h429,
              if_neg Bool.false_ne_true]
            exact ⟨(ih _).1, List.cons_prefix_cons.mpr ⟨rfl, (ih _).2⟩⟩
      | exn msg =>
          rw [analyzeCascade_cons_exn respond errors m rest msg hr]
          rw [callsOf_call, sleepsOf_call, List.filter_cons,
            rateLimitedAt_false_of_exn respond m msg hr, if_neg Bool.false_ne_true]
          exact ⟨(ih _).1, List.cons_prefix_cons.mpr ⟨rfl, (ih _).2⟩⟩

/-- C7 counterexample: with every model rate-limited (HTTP 429), the delay
after each attempt is the constant 1 second — the delay sequence
`[1, 1, 1]` is not increasing with the attempt index, contradicting the
claimed 1-3 second delay that increases with the attempt index. -/
theorem c7_counterexample :
    sleepsOf (analyzeCascade (fun _ => SummaryAttempt.httpErr 429 "rate limited") []
      ["model-a", "model-b", "model-c"]).snd = [1, 1, 1] ∧
    ¬ List.Chain' (fun x y => x < y)
      (sleepsOf (analyzeCascade (fun _ => SummaryAttempt.httpErr 429 "rate limited") []
        ["model-a", "model-b", "model-c"]).snd) := by
  constructor
  · decide
  · intro h
    rw [show sleepsOf (analyzeCascade (fun _ => SummaryAttempt.httpErr 429 "rate limited") []
        ["model-a", "model-b", "model-c"]).snd = [1, 1, 1] from by decide] at h
    exact absurd (List.chain'_cons.mp h).1 (by omega)

/-- C7 amended: after a rate-limited (HTTP 429) attempt the cascade sleeps
a fixed 1 second (the delay does not grow with the attempt index) before
moving to the next model; every other failure moves on with no sleep (the
sleep list is exactly one 1-second entry per rate-limited call, in order);
and the called models form a prefix of the declared list, so no model is
ever retried. -/
theorem c7_fixed_delay_no_retry (respond : String → SummaryAttempt)
    (models : List String) :
    sleepsOf (analyzeCascade respond [] models).snd
      = ((callsOf (analyzeCascade respond [] models).snd).filter
          (rateLimitedAt respond)).map (fun _ => 1) ∧
    callsOf (analyzeCascade respond [] models).snd <+: models :=
  analyzeCascade_sleep_shape respond models []

/-- C8 counterexample: with an empty model list the cascade returns the
generic failure response `All models failed. Last error: Unknown` — the
very same value an exhausted non-empty cascade can produce (a single model
answering 200 with empty `choices` collects no error either) — so there is
no distinct `ConfigurationError` result in the code. -/
theorem c8_counterexample :
    analyzeCascade (fun _ => SummaryAttempt.exn "never called") [] [] =
      (AnalyzeOutcome.failure "All models failed. Last error: Unknown", []) ∧
    (analyzeCascade (fun _ => SummaryAttempt.ok []) []
      ["google/gemini-2.0-flash-exp:free"]).fst =
      AnalyzeOutcome.failure "All models failed. Last error: Unknown" := by
  exact ⟨by decide, by decide⟩

/-- C8 amended: an empty models list makes the cascade return immediately
with the generic all-models-failed failure (`Last error: Unknown`), not a
distinct configuration-error result; the empty event trace shows no network
call is attempted. -/
theorem c8_empty_models (respond : String → SummaryAttempt) :
    analyzeCascade respond [] [] =
      (AnalyzeOutcome.failure "All models failed. Last error: Unknown", []) := rfl

/-- C6 counterexample: for a raw list of one user turn followed by 50 system
turns, the code's trim-then-filter order yields the empty conversation,
while the claimed drop-system-turns-then-trim order would keep the user
turn; the two orders disagree. -/
theorem c6_counterexample :
    analyzeTrimmed (Msg.mk "user" "hello" :: List.replicate 50 (Msg.mk "system" "sys")) = [] ∧
    specDropThenTrim (Msg.mk "user" "hello" :: List.replicate 50 (Msg.mk "system" "sys"))
      = [Msg.mk "user" "hello"] ∧
    analyzeTrimmed (Msg.mk "user" "hello" :: List.replicate 50 (Msg.mk "system" "sys"))
      ≠ specDropThenTrim (Msg.mk "user" "hello" :: List.replicate 50 (Msg.mk "system" "sys")) :=
  ⟨by decide, by decide, by decide⟩

/-- C6 amended: the summarization job first trims the raw message list to
its most recent 50 turns and only then drops the non-user/assistant turns
(`[m for m in messages[-50:] if ...]`); the result is a subsequence of the
system-free conversation of length at most 50, but it is the filter of the
last 50 raw turns, not the last 50 turns of the system-free sequence. -/
theorem c6_trim_then_filter (messages : List Msg) :
    analyzeTrimmed messages
      = (messages.drop (messages.length - 50)).filter isConvRole ∧
    (analyzeTrimmed messages).Sublist (messages.filter isConvRole) ∧
    (analyzeTrimmed messages).length ≤ 50 := by
  refine ⟨rfl, ?_, ?_⟩
  · exact List.Sublist.filter isConvRole (List.drop_sublist _ _)
  · calc (analyzeTrimmed messages).length
        ≤ (messages.drop (messages.length - 50)).length := List.length_filter_le _ _
    _ ≤ 50 := by
        rw [List.length_drop]
        omega

/-- C4 counterexample: an upstream usage payload that carries only
`total_tokens` (`{"total_tokens": 100}`) produces a telemetry document with
`prompt_tokens = null` and `completion_tokens = null` while `total_tokens`
is taken verbatim from upstream — a partial mix with null fields, which the
claim rules out; the all-estimated shape at the same latency/status would
have been `(50, 50, 100)`. -/
theorem c4_counterexample :
    tokenCounts (some (ChatUsage.mk none none (some 100))) 1000 "success"
      = (none, none, some 100) ∧
    tokenCounts none 1000 "success" = (some 50, some 50, some 100) ∧
    (none : Option Int) ≠ some (50 : Int) :=
  ⟨by decide, by decide, by decide⟩

/-- C4 amended: the heuristic fallback is keyed solely on `total_tokens`
being absent: when `usage` is missing or lacks `total_tokens`, all three
counts are estimates (never null) — `max(100, latency_ms / 10)` on success,
0 otherwise, halved for prompt/completion; when `usage` carries
`total_tokens`, all three fields are copied verbatim from `usage`, so a
usage payload with only some fields yields a partial mix with nulls. -/
theorem c4_all_or_nothing (usage : Option ChatUsage) (rt : Nat) (status : String) :
    tokenCounts usage rt status =
      match usage.bind ChatUsage.total_tokens with
      | none =>
          (some ((if status = "success" then max 100 (Int.ofNat (rt / 10)) else 0) / 2),
           some ((if status = "success" then max 100 (Int.ofNat (rt / 10)) else 0) / 2),
           some (if status = "success" then max 100 (Int.ofNat (rt / 10)) else 0))
      | some t =>
          (usage.bind ChatUsage.prompt_tokens, usage.bind ChatUsage.completion_tokens,
           some t) := by
  have hpos : (0 : Int) < max 100 (Int.ofNat (rt / 10)) :=
    lt_of_lt_of_le (by norm_num) (le_max_left _ _)
  cases usage with
  | none =>
      by_cases hs : status = "success"
      · simp [tokenCounts, hs, hpos]
      · simp [tokenCounts, hs]
  | some u =>
      cases hu : u.total_tokens with
      | none =>
          by_cases hs : status = "success"
          · simp [tokenCounts, hs, hu, hpos]
          · simp [tokenCounts, hs, hu]
      | some t =>
          simp [tokenCounts, hu]

theorem search_user_memory_ne_empty (e : String) (store : StoreLookup) (m : String)
    (h : search_user_memory e store = some m) : m ≠ "" := by
  intro hm0
  subst hm0
  unfold search_user_memory at h
  by_cases he : e = ""
  · rw [if_pos he] at h
    exact Option.noConfusion h
  · rw [if_neg he] at h
    cases store with
    | noClient => exact Option.noConfusion h
    | storeError msg => exact Option.noConfusion h
    | found hits =>
        cases hits with
        | nil => exact Option.noConfusion h
        | cons hd tl =>
            have h2 : (match hd.summary with
                | some s =>
                    if s ≠ "" then
                      some ("[From previous chat on "
                        ++ (hd.last_message_at.getD "").take 10 ++ "]: " ++ s)
                    else none
                | none => none) = some "" := h
            cases hs : hd.summary with
            | none =>
                rw [hs] at h2
                exact Option.noConfusion h2
            | some s =>
                rw [hs] at h2
                have h3 : (if s ≠ "" then
                    some ("[From previous chat on "
                      ++ (hd.last_message_at.getD "").take 10 ++ "]: " ++ s)
                    else none) = some "" := h2
                by_cases hse : s = ""
                · rw [if_neg (fun hc => hc hse)] at h3
                  exact Option.noConfusion h3
                · rw [if_pos hse] at h3
                  have heq := Option.some.inj h3
                  have hlen := congrArg String.length heq
                  rw [String.length_append, String.length_append,
                    String.length_append] at hlen
                  have h23 : 0 < String.length "[From previous chat on " := by decide
                  have h0 : String.length "" = 0 := rfl
                  omega

theorem assembleMessages_ne_nil (model : String) (history : List Msg)
    (userMsg sysContent : String) :
    assembleMessages model history userMsg sysContent ≠ [] := by
  cases history with
  | nil =>
      by_cases hg : containsGemma3 model = true
      · simp [assembleMessages, hg]
      · simp [assembleMessages, hg]
  | cons h rest =>
      by_cases hg : containsGemma3 model = true
      · simp [assembleMessages, hg]
      · by_cases hr : h.role = "system"
        · simp [assembleMessages, hg, hr]
        · simp [assembleMessages, hg, hr]

/-- C5 amended: when a memory context is present (the lookup returned a
summary) and the target model accepts a system role (not a gemma-3 model),
the memory is appended to the content of the primary system turn at index 0
(`system_content += ...`), not inserted as a second system turn: the
assembled list is the same list the no-memory assembly produces, with only
the head turn's content extended by the memory block, and in particular of
the same length. -/
theorem c5_memory_merged_into_primary (model : String) (history : List Msg)
    (userMsg e m : String) (store : StoreLookup)
    (hg : containsGemma3 model = false)
    (hm : search_user_memory e store = some m) :
    chatSystemContent (some e) store = systemContentBase ++ longTermMemoryHeader ++ m ∧
    assembleMessages model history userMsg (chatSystemContent (some e) store)
      = Msg.mk "system" (systemContentBase ++ longTermMemoryHeader ++ m)
          :: (assembleMessages model history userMsg systemContentBase).drop 1 ∧
    (assembleMessages model history userMsg (chatSystemContent (some e) store)).length
      = (assembleMessages model history userMsg systemContentBase).length := by
  have hene : e ≠ "" := by
    intro he
    unfold search_user_memory at hm
    rw [if_pos he] at hm
    exact Option.noConfusion hm
  have hmne : m ≠ "" := search_user_memory_ne_empty e store m hm
  have hsys : chatSystemContent (some e) store
      = systemContentBase ++ longTermMemoryHeader ++ m := by
    simp [chatSystemContent, optStrTruthy, hene, hm, hmne]
  have hasm : assembleMessages model history userMsg (chatSystemContent (some e) store)
      = Msg.mk "system" (systemContentBase ++ longTermMemoryHeader ++ m)
          :: (assembleMessages model history userMsg systemContentBase).drop 1 := by
    rw [hsys]
    cases history with
    | nil => simp [assembleMessages, hg]
    | cons h rest =>
        by_cases hr : h.role = "system"
        · simp [assembleMessages, hg, hr]
        · simp [assembleMessages, hg, hr]
  refine ⟨hsys, hasm, ?_⟩
  rw [hasm, List.length_cons, List.length_drop]
  have hpos : 0 < (assembleMessages model history userMsg systemContentBase).length :=
    List.length_pos.mpr (assembleMessages_ne_nil model history userMsg systemContentBase)
  omega

/-- Witness for C5 amended: a llama model (accepts system role), empty
history, and a store holding one summary; the memory lands inside the
single head system turn. -/
theorem c5_witness :
    chatSystemContent (some "u@example.com")
        (StoreLookup.found [StoreHit.mk (some "M") (some "2024-01-02T03:04:05Z")])
      = systemContentBase ++ longTermMemoryHeader ++ "[From previous chat on 2024-01-02]: M" ∧
    assembleMessages "meta-llama/llama-3-70b-instruct:free" [] "hi"
        (chatSystemContent (some "u@example.com")
          (StoreLookup.found [StoreHit.mk (some "M") (some "2024-01-02T03:04:05Z")]))
      = Msg.mk "system"
          (systemContentBase ++ longTermMemoryHeader ++ "[From previous chat on 2024-01-02]: M")
          :: (assembleMessages "meta-llama/llama-3-70b-instruct:free" [] "hi"
              systemContentBase).drop 1 ∧
    (assembleMessages "meta-llama/llama-3-70b-instruct:free" [] "hi"
        (chatSystemContent (some "u@example.com")
          (StoreLookup.found [StoreHit.mk (some "M") (some "2024-01-02T03:04:05Z")]))).length
      = (assembleMessages "meta-llama/llama-3-70b-instruct:free" [] "hi"
          systemContentBase).length :=
  c5_memory_merged_into_primary "meta-llama/llama-3-70b-instruct:free" [] "hi"
    "u@example.com" "[From previous chat on 2024-01-02]: M"
    (StoreLookup.found [StoreHit.mk (some "M") (some "2024-01-02T03:04:05Z")])
    (by decide) (by decide)

set_option maxRecDepth 8192 in
/-- C5 counterexample: memory context present (summary `M` in the store),
non-gemma model, empty history — the turn at index 1 of the assembled list
is the user turn, not a second system turn carrying the memory; the memory
sits inside the index-0 system turn's content. -/
theorem c5_counterexample :
    (assembleMessages "meta-llama/llama-3-70b-instruct:free" [] "hi"
        (chatSystemContent (some "u@example.com")
          (StoreLookup.found [StoreHit.mk (some "M") (some "2024-01-02T03:04:05Z")]))).get? 1
      = some (Msg.mk "user" "hi") ∧
    (Msg.mk "user" "hi").role ≠ "system" ∧
    (assembleMessages "meta-llama/llama-3-70b-instruct:free" [] "hi"
        (chatSystemContent (some "u@example.com")
          (StoreLookup.found [StoreHit.mk (some "M") (some "2024-01-02T03:04:05Z")]))).get? 0
      = some (Msg.mk "system"
          (systemContentBase ++ longTermMemoryHeader ++ "[From previous chat on 2024-01-02]: M")) :=
  ⟨by decide, by decide, by decide⟩

/-- C2 counterexample: an upstream body whose `choices[0].message.content`
is the part list `[text "A", image_url "u1", text "B"]` makes the `/chat`
endpoint return that raw list unchanged as `message` with `images = []` —
not the claimed concatenated text `"AB"` with `images = ["u1"]`; no
part-splitting code exists in the handler. -/
theorem c2_counterexample :
    (chatHandler (ChatRequestR.mk "hello" "provider/model" [] none none)
        StoreLookup.noClient
        (ChatUpstream.ok (ChatBody.mk
          (some [ChatContent.parts
            [ContentPart.text "A", ContentPart.image_url "u1", ContentPart.text "B"]])
          (some "served/model") none))
        (TranslateAttempt.exn "unused")).fst
      = ChatOutcome.success
          (ChatContent.parts
            [ContentPart.text "A", ContentPart.image_url "u1", ContentPart.text "B"])
          [] "served/model" ∧
    ChatOutcome.success
        (ChatContent.parts
          [ContentPart.text "A", ContentPart.image_url "u1", ContentPart.text "B"])
        [] "served/model"
      ≠ ChatOutcome.success (ChatContent.str "AB") ["u1"] "served/model" :=
  ⟨by decide, by decide⟩

/-- C2 amended: on a 200 upstream response the `/chat` endpoint returns
`choices[0].message.content` exactly as received (whatever its shape,
string or part list) and the `images` field is always the empty list; no
text-part concatenation or image-URL collection is performed
(src/main.py lines 896-943). -/
theorem c2_content_passthrough (req : ChatRequestR) (store : StoreLookup)
    (tr : TranslateAttempt) (body : ChatBody) (c : ChatContent) (cs : List ChatContent)
    (h1 : is_image_generation_prompt req.message = false)
    (h2 : body.choices = some (c :: cs)) :
    (chatHandler req store (ChatUpstream.ok body) tr).fst
      = ChatOutcome.success c [] (body.model.getD req.model) := by
  simp [chatHandler, h1, h2]

/-- Witness for C2 amended: a plain-string content is passed through with
empty images and the upstream-reported model name. -/
theorem c2_witness :
    (chatHandler (ChatRequestR.mk "hi" "base/model" [] none none)
        StoreLookup.noClient
        (ChatUpstream.ok (ChatBody.mk (some [ChatContent.str "answer"])
          (some "served/model") none))
        (TranslateAttempt.exn "unused")).fst
      = ChatOutcome.success (ChatContent.str "answer") [] "served/model" :=
  c2_content_passthrough _ _ _ _ _ _ (by decide) rfl

/-- C3 counterexample: on a successful chat turn the handler performs the
token-usage telemetry write as an inline awaited step
(`await log_token_usage(...)`, src/main.py lines 914-924, explicitly
commented "SYNCHRONOUSLY (not background task)") before returning — the
step is on the response path, not a background task, contradicting the
claimed fire-and-forget placement. -/
theorem c3_counterexample :
    ChatStep.awaitTokenUsage ∈
      (chatHandler (ChatRequestR.mk "hello" "provider/model" [] (some "chat1") none)
        StoreLookup.noClient
        (ChatUpstream.ok (ChatBody.mk (some [ChatContent.str "hi"]) none none))
        (TranslateAttempt.exn "unused")).snd ∧
    isBackgroundStep ChatStep.awaitTokenUsage = false :=
  ⟨by decide, rfl⟩

/-- C3 amended: the token-usage telemetry write is awaited synchronously on
the response path of every successful chat turn (the `awaitTokenUsage` step
is in the handler's pre-return step list and is not a background task); the
other half of the claim holds: `log_token_usage` never raises to the caller
— for every store condition it returns normally (reconnect failure and
index errors are caught and swallowed). -/
theorem c3_token_log_awaited (req : ChatRequestR) (store : StoreLookup)
    (tr : TranslateAttempt) (body : ChatBody) (c : ChatContent) (cs : List ChatContent)
    (rid sid uid mdl : String) (usage : Option ChatUsage) (rtMs : Nat)
    (st ep : String) (env : TokenLogEnv)
    (h1 : is_image_generation_prompt req.message = false)
    (h2 : body.choices = some (c :: cs)) :
    ChatStep.awaitTokenUsage ∈ (chatHandler req store (ChatUpstream.ok body) tr).snd ∧
    isBackgroundStep ChatStep.awaitTokenUsage = false ∧
    exceptOk (log_token_usage rid sid uid mdl usage rtMs st ep env) = true := by
  refine ⟨?_, rfl, ?_⟩
  · simp [chatHandler, h1, h2]
  · rcases env with ⟨cu, ro, wr⟩
    unfold log_token_usage
    split
    · rfl
    · cases wr <;> rfl

/-- Witness for C3 amended: a concrete successful turn and a store whose
index call errors; the await step is present and the telemetry call still
returns normally. -/
theorem c3_witness :
    ChatStep.awaitTokenUsage ∈
      (chatHandler (ChatRequestR.mk "hey" "provider/model" [] none none)
        StoreLookup.noClient
        (ChatUpstream.ok (ChatBody.mk (some [ChatContent.str "ok"]) none none))
        (TranslateAttempt.exn "unused")).snd ∧
    isBackgroundStep ChatStep.awaitTokenUsage = false ∧
    exceptOk (log_token_usage "rid" "sid" "uid" "provider/model" none 1200 "success" "/chat"
      (TokenLogEnv.mk true true (StoreWrite.err "connection refused"))) = true :=
  c3_token_log_awaited _ _ _ _ _ _ "rid" "sid" "uid" "provider/model" none 1200
    "success" "/chat" (TokenLogEnv.mk true true (StoreWrite.err "connection refused"))
    (by decide) rfl

/-- C9: when the memory store is unavailable (`None` client) or the lookup
raises, `search_user_memory` returns `None` (its catch-all `except` keeps
any exception from escaping, modelled by totality), no memory is injected
into the system prompt, and the chat flow still produces the normal
successful answer from the upstream response. -/
theorem c9_store_failure (req : ChatRequestR) (store : StoreLookup)
    (tr : TranslateAttempt) (body : ChatBody) (c : ChatContent) (cs : List ChatContent)
    (e : String)
    (hid : req.user_email = some e)
    (hstore : store = StoreLookup.noClient ∨ ∃ msg, store = StoreLookup.storeError msg)
    (himg : is_image_generation_prompt req.message = false)
    (hch : body.choices = some (c :: cs)) :
    search_user_memory e store = none ∧
    chatSystemContent req.user_email store = systemContentBase ∧
    (chatHandler req store (ChatUpstream.ok body) tr).fst
      = ChatOutcome.success c [] (body.model.getD req.model) := by
  have hs : ∀ e2 : String, search_user_memory e2 store = none := by
    intro e2
    rcases hstore with h | ⟨msg, h⟩ <;>
      · subst h
        unfold search_user_memory
        split <;> rfl
  refine ⟨hs e, ?_, ?_⟩
  · rw [hid]
    unfold chatSystemContent
    split
    · rw [hs ((some e).getD "")]
    · rfl
  · simp [chatHandler, himg, hch]

/-- Witness for C9: unreachable store, known user — lookup yields `None`,
the system prompt is the bare directive, and the answer is served. -/
theorem c9_witness :
    search_user_memory "u@example.com" StoreLookup.noClient = none ∧
    chatSystemContent (ChatRequestR.mk "hello" "provider/model" [] none
        (some "u@example.com")).user_email StoreLookup.noClient = systemContentBase ∧
    (chatHandler (ChatRequestR.mk "hello" "provider/model" [] none (some "u@example.com"))
        StoreLookup.noClient
        (ChatUpstream.ok (ChatBody.mk (some [ChatContent.str "hi"]) none none))
        (TranslateAttempt.exn "unused")).fst
      = ChatOutcome.success (ChatContent.str "hi") [] "provider/model" :=
  c9_store_failure _ StoreLookup.noClient _ _ _ _ "u@example.com" rfl (Or.inl rfl)
    (by decide) rfl

/-- C10: a message recognized as an image-generation command makes `/chat`
bypass the whole chat pipeline: the response is the translation of the
command-stripped remainder with the model field fixed to
`google/gemma-3-27b-it:free` and an empty images list, and the handler's
only side-effect step is the translation call — no memory lookup, no
message assembly, and no upstream POST with the request's chosen model. -/
theorem c10_image_bypass (req : ChatRequestR) (store : StoreLookup)
    (up : ChatUpstream) (tr : TranslateAttempt)
    (h : is_image_generation_prompt req.message = true) :
    (chatHandler req store up tr).fst
      = ChatOutcome.success
          (ChatContent.str (translateLogic (stripImageCommand req.message) tr).fst) []
          "google/gemma-3-27b-it:free" ∧
    (chatHandler req store up tr).snd
      = [ChatStep.translateCall (stripImageCommand req.message)] ∧
    (chatHandler req store up tr).snd.any isMemoryOrUpstream = false := by
  refine ⟨?_, ?_, ?_⟩ <;> simp [chatHandler, h, isMemoryOrUpstream]

/-- Witness for C10: `/imagine a cat` is detected, stripped to `a cat`,
translated, and answered under the fixed gemma model with no memory or
upstream-chat step. -/
theorem c10_witness :
    (chatHandler (ChatRequestR.mk "/imagine a cat" "provider/model" [] none
        (some "u@example.com"))
        StoreLookup.noClient (ChatUpstream.exn "unused")
        (TranslateAttempt.http 200 ["a cat drawing"] "")).fst
      = ChatOutcome.success (ChatContent.str "a cat drawing") []
          "google/gemma-3-27b-it:free" ∧
    (chatHandler (ChatRequestR.mk "/imagine a cat" "provider/model" [] none
        (some "u@example.com"))
        StoreLookup.noClient (ChatUpstream.exn "unused")
        (TranslateAttempt.http 200 ["a cat drawing"] "")).snd
      = [ChatStep.translateCall "a cat"] ∧
    (chatHandler (ChatRequestR.mk "/imagine a cat" "provider/model" [] none
        (some "u@example.com"))
        StoreLookup.noClient (ChatUpstream.exn "unused")
        (TranslateAttempt.http 200 ["a cat drawing"] "")).snd.any isMemoryOrUpstream
      = false :=
  ⟨(c10_image_bypass _ _ _ _ (by decide)).1,
   (c10_image_bypass _ _ _ _ (by decide)).2.1,
   (c10_image_bypass _ _ _ _ (by decide)).2.2⟩
